import Mathlib

/-!
Verification of the JWT-routing load balancer (`balancer/jwt.go`).

The Go code is shallowly embedded: `Backend` and `LoadBalancer` mirror the
structs in `jwt.go`; `getBackendForRequest`, `HealthCheck`'s per-backend
update, `ServeHTTP` and `GetStats` are translated as pure functions with
explicit state passing.  The `uint64` fields are modelled as `Nat` reduced
modulo `2 ^ 64` wherever the Go code can overflow, and the signed `int`
field `failCount` is modelled as an `Int` wrapped into `[-2^63, 2^63)`,
Go's defined two's-complement overflow at the 64-bit width of `int`.
-/

namespace LB

/-- Modulus of Go's `uint64` arithmetic, `2 ^ 64`. -/
def U64 : Nat := 2 ^ 64

/-- Reduction of Go's 64-bit signed `int` arithmetic into its
two's-complement value range `[-2^63, 2^63)`. -/
def wrap64 (x : Int) : Int := (x + 2 ^ 63) % 2 ^ 64 - 2 ^ 63

/-- Mirrors the `Backend` struct in `jwt.go` (the `URL` field is kept as a
plain string; `Proxy` and the mutexes carry no state relevant here). -/
structure Backend where
  url : String
  isAdmin : Bool
  isAlive : Bool
  failCount : Int
  requestCount : Nat
  deriving Repr, DecidableEq

/-- Mirrors the `LoadBalancer` struct in `jwt.go`: the backend slice plus the
`roundRobinCount` cursor (a `uint64`, modelled as a `Nat < 2^64`). -/
structure LoadBalancer where
  backends : List Backend
  roundRobinCount : Nat
  deriving Repr, DecidableEq

/-- Mirrors `NewLoadBalancer`: one backend per URL, `IsAdmin` true exactly
for index 0, every backend initially alive, counters zero, cursor zero. -/
def NewLoadBalancer (backendURLs : List String) : LoadBalancer :=
  { backends :=
      (List.range backendURLs.length).zipWith
        (fun i u =>
          { url := u, isAdmin := i == 0, isAlive := true,
            failCount := 0, requestCount := 0 })
        backendURLs,
    roundRobinCount := 0 }

/-- Liveness of the backend at index `idx` (false when out of range). -/
def aliveIdx (backends : List Backend) (idx : Nat) : Bool :=
  match backends[idx]? with
  | some b => b.isAlive
  | none => false

/-- The loop body of `getBackendForRequest`'s failover scan:
`for i := 0; i < len(backends); i++ { idx := (nextIndex + i) % len; ... }`.
`fuel` counts the iterations still to run (`len - i`). -/
def scanAliveAux (backends : List Backend) (next : Nat) : Nat → Nat → Option Nat
  | _, 0 => none
  | i, fuel + 1 =>
    if aliveIdx backends ((next + i) % backends.length) then
      some ((next + i) % backends.length)
    else scanAliveAux backends next (i + 1) fuel

/-- The full failover scan: at most `backends.length` probes starting at
index `next`, returning the index of the first alive backend. -/
def scanAlive (backends : List Backend) (next : Nat) : Option Nat :=
  scanAliveAux backends next 0 backends.length

/-- Mirrors `getBackendForRequest` in `jwt.go`, returning the index of the
chosen backend (Go returns the `*Backend` itself) together with the updated
balancer state.  The `"Admin"` branch reads `lb.backends[0]` and never
touches the cursor; every other role first performs
`atomic.AddUint64(&lb.roundRobinCount, 1)` and scans from the new value
modulo the pool size.  (Go panics on an empty pool in both branches; the
theorems below restrict to nonempty pools, matching the spec's
pool-size ≥ 1 invariant.) -/
def getBackendForRequest (lb : LoadBalancer) (role : String) :
    Option Nat × LoadBalancer :=
  if role = "Admin" then
    match lb.backends[0]? with
    | some adminBackend => (if adminBackend.isAlive then some 0 else none, lb)
    | none => (none, lb)
  else
    let newCount := (lb.roundRobinCount + 1) % U64
    let nextIndex := newCount % lb.backends.length
    let lb' := { lb with roundRobinCount := newCount }
    (scanAlive lb.backends nextIndex, lb')

/-- The failed-probe branch of `HealthCheck`'s loop body in `jwt.go`
(`backend.IsAlive = false; backend.failCount++`); the spec's `markDown`.
The `++` on the `int` counter wraps at the 64-bit boundary (Go's defined
two's-complement overflow), hence the `wrap64`. -/
def markDown (b : Backend) : Backend :=
  { b with isAlive := false, failCount := wrap64 (b.failCount + 1) }

/-- The successful-probe branch of `HealthCheck`'s loop body in `jwt.go`
(`backend.IsAlive = true; backend.failCount = 0`); the spec's `markAlive`. -/
def markAlive (b : Backend) : Backend :=
  { b with isAlive := true, failCount := 0 }

/-- One health probe of one backend: `HealthCheck` applies `markAlive` on a
successful probe (`err == nil && resp.StatusCode == 200`) and `markDown`
otherwise. -/
def healthProbe (b : Backend) (probeOk : Bool) : Backend :=
  if probeOk then markAlive b else markDown b

/-- One tick of the `HealthCheck` loop: every backend is probed, with
`probeOk i` the outcome of backend `i`'s probe. -/
def healthCheckTick (lb : LoadBalancer) (probeOk : Nat → Bool) : LoadBalancer :=
  { lb with
    backends :=
      (List.range lb.backends.length).zipWith
        (fun i b => healthProbe b (probeOk i)) lb.backends }

/-- Models `atomic.AddUint64(&backend.RequestCount, 1)` in `ServeHTTP`,
applied to the backend at index `idx`. -/
def incrementServed (lb : LoadBalancer) (idx : Nat) : LoadBalancer :=
  { lb with
    backends :=
      lb.backends.modify
        (fun b => { b with requestCount := (b.requestCount + 1) % U64 }) idx }

/-- Outcome of the forwarding attempt `backend.Proxy.ServeHTTP(w, r)`:
either the backend's own response status, or a transport-level failure
(handled by the proxy's `ErrorHandler`). -/
inductive ForwardResult where
  | ok (status : Nat)
  | transportError
  deriving Repr, DecidableEq

/-- The HTTP response `ServeHTTP` produces. -/
inductive HttpOutcome where
  /-- Status 401: `ValidateJWT` failed. -/
  | unauthorized
  /-- Status 503: `getBackendForRequest` returned `nil`. -/
  | serviceUnavailable
  /-- Status 502: the proxy's `ErrorHandler` ran on a transport error. -/
  | badGateway
  /-- The proxied backend response with its status. -/
  | proxied (status : Nat)
  deriving Repr, DecidableEq

/-- The numeric status of an outcome (the proxied case keeps the backend's
own status, 200 on a healthy backend's success). -/
def HttpOutcome.statusCode : HttpOutcome → Nat
  | .unauthorized => 401
  | .serviceUnavailable => 503
  | .badGateway => 502
  | .proxied s => s

/-- Mirrors `ServeHTTP` in `jwt.go`.  `auth` is the result of the external
role extractor `ValidateJWT` (`none` = validation error); `fwd` is the
outcome of the forwarding attempt, consulted only when a backend was
selected. -/
def ServeHTTP (lb : LoadBalancer) (auth : Option String) (fwd : ForwardResult) :
    HttpOutcome × LoadBalancer :=
  match auth with
  | none => (.unauthorized, lb)
  | some role =>
    match getBackendForRequest lb role with
    | (none, lb') => (.serviceUnavailable, lb')
    | (some idx, lb') =>
      let lb'' := incrementServed lb' idx
      match fwd with
      | .transportError => (.badGateway, lb'')
      | .ok s => (.proxied s, lb'')

/-- Per-backend entry of `GetStats`'s snapshot. -/
structure BackendStats where
  url : String
  isAdmin : Bool
  isAlive : Bool
  failCount : Int
  requestCount : Nat
  deriving Repr, DecidableEq

/-- The map returned by `GetStats` in `jwt.go`. -/
structure Stats where
  backends : List BackendStats
  totalRequests : Nat
  deriving Repr, DecidableEq

/-- Mirrors `GetStats`: snapshot of every backend plus
`stats["totalRequests"] = lb.roundRobinCount`. -/
def GetStats (lb : LoadBalancer) : Stats :=
  { backends :=
      lb.backends.map (fun b =>
        { url := b.url, isAdmin := b.isAdmin, isAlive := b.isAlive,
          failCount := b.failCount, requestCount := b.requestCount }),
    totalRequests := lb.roundRobinCount }

/-- Routes a sequence of requests (one role each) through
`getBackendForRequest`, threading the balancer state; returns the selection
results in order together with the final state.  Atomicity of the cursor
increment is modelled by this sequential interleaving of the requests. -/
def routeAll (lb : LoadBalancer) : List String → List (Option Nat) × LoadBalancer
  | [] => ([], lb)
  | role :: rest =>
    let (res, lb') := getBackendForRequest lb role
    let (results, lb'') := routeAll lb' rest
    (res :: results, lb'')

/-- A three-backend pool as wired by `main.go`. -/
def sampleLB : LoadBalancer :=
  NewLoadBalancer
    ["http://localhost:8081", "http://localhost:8082", "http://localhost:8083"]

/-- The three-backend pool after every backend failed one health probe. -/
def deadLB : LoadBalancer := healthCheckTick sampleLB (fun _ => false)

/-- A freshly constructed backend, as `NewLoadBalancer` builds index 1. -/
def freshBackend : Backend :=
  { url := "http://localhost:8082", isAdmin := false, isAlive := true,
    failCount := 0, requestCount := 0 }

/-! Helper lemmas about the failover scan. -/

theorem aliveIdx_true_lt (backends : List Backend) (idx : Nat)
    (h : aliveIdx backends idx = true) : idx < backends.length := by
  by_contra hge
  have hnone : backends[idx]? = none := List.getElem?_eq_none (Nat.le_of_not_lt hge)
  simp [aliveIdx, hnone] at h

theorem scanAliveAux_lt (backends : List Backend) (next : Nat) :
    ∀ fuel i idx, scanAliveAux backends next i fuel = some idx →
      idx < backends.length := by
  intro fuel
  induction fuel with
  | zero =>
    intro i idx h
    exact absurd h (by simp [scanAliveAux])
  | succ m ih =>
    intro i idx h
    rw [scanAliveAux] at h
    by_cases halive : aliveIdx backends ((next + i) % backends.length) = true
    · rw [if_pos halive] at h
      have hlt := aliveIdx_true_lt backends _ halive
      injection h with h
      omega
    · rw [if_neg halive] at h
      exact ih (i + 1) idx h

theorem scanAliveAux_eq_none (backends : List Backend) (next : Nat) :
    ∀ fuel i, i + fuel = backends.length →
      (scanAliveAux backends next i fuel = none ↔
        ∀ k, i ≤ k → k < backends.length →
          aliveIdx backends ((next + k) % backends.length) = false) := by
  intro fuel
  induction fuel with
  | zero =>
    intro i hlen
    simp only [scanAliveAux]
    constructor
    · intro _ k hik hk
      omega
    · intro _
      trivial
  | succ m ih =>
    intro i hlen
    rw [scanAliveAux]
    by_cases halive : aliveIdx backends ((next + i) % backends.length) = true
    · rw [if_pos halive]
      constructor
      · intro h
        exact absurd h (by simp)
      · intro h
        have hfalse := h i (Nat.le_refl i) (by omega)
        rw [halive] at hfalse
        exact absurd hfalse (by simp)
    · rw [if_neg halive]
      rw [ih (i + 1) (by omega)]
      simp only [Bool.not_eq_true] at halive
      constructor
      · intro h k hik hk
        rcases Nat.eq_or_lt_of_le hik with heq | hlt
        · subst heq
          exact halive
        · exact h k hlt hk
      · intro h k hik hk
        exact h k (by omega) hk

theorem scanAliveAux_eq_some (backends : List Backend) (next : Nat) :
    ∀ fuel i idx, i + fuel = backends.length →
      scanAliveAux backends next i fuel = some idx →
      ∃ k, i ≤ k ∧ k < backends.length ∧ idx = (next + k) % backends.length ∧
        aliveIdx backends idx = true ∧
        ∀ j, i ≤ j → j < k →
          aliveIdx backends ((next + j) % backends.length) = false := by
  intro fuel
  induction fuel with
  | zero =>
    intro i idx _ h
    exact absurd h (by simp [scanAliveAux])
  | succ m ih =>
    intro i idx hlen h
    rw [scanAliveAux] at h
    by_cases halive : aliveIdx backends ((next + i) % backends.length) = true
    · rw [if_pos halive] at h
      have hidx : (next + i) % backends.length = idx := by
        injection h
      subst hidx
      refine ⟨i, Nat.le_refl i, by omega, rfl, halive, ?_⟩
      intro j hij hji
      exact absurd hji (by omega)
    · rw [if_neg halive] at h
      obtain ⟨k, hik, hkn, hidx, hal, hprev⟩ := ih (i + 1) idx (by omega) h
      simp only [Bool.not_eq_true] at halive
      refine ⟨k, by omega, hkn, hidx, hal, ?_⟩
      intro j hij hjk
      rcases Nat.eq_or_lt_of_le hij with heq | hlt
      · subst heq
        exact halive
      · exact hprev j hlt hjk

theorem add_mod_cover (n next idx : Nat) (hn : 0 < n) (hidx : idx < n) :
    (next + (idx + n - next % n) % n) % n = idx := by
  have hdm := Nat.div_add_mod next n
  have hr : next % n < n := Nat.mod_lt _ hn
  have h1 : next + (idx + n - next % n) = n * (next / n) + n + idx := by
    omega
  have h2 : n * (next / n) + n + idx = idx + n * (next / n + 1) := by
    ring
  rw [Nat.add_mod_mod, h1, h2, Nat.add_mul_mod_self_left, Nat.mod_eq_of_lt hidx]

theorem aliveIdx_shift_iff (backends : List Backend) (next : Nat)
    (hn : 0 < backends.length) :
    (∀ k, k < backends.length →
        aliveIdx backends ((next + k) % backends.length) = false) ↔
      ∀ k, k < backends.length → aliveIdx backends k = false := by
  constructor
  · intro h idx hidx
    have hk : (idx + backends.length - next % backends.length) % backends.length <
        backends.length := Nat.mod_lt _ hn
    have hfalse := h _ hk
    rwa [add_mod_cover _ _ _ hn hidx] at hfalse
  · intro h k _
    exact h _ (Nat.mod_lt _ hn)

theorem aliveIdx_false_iff (backends : List Backend) :
    (∀ k, k < backends.length → aliveIdx backends k = false) ↔
      ∀ b ∈ backends, b.isAlive = false := by
  constructor
  · intro h b hb
    obtain ⟨i, hi, rfl⟩ := List.getElem_of_mem hb
    have hfalse := h i hi
    simpa [aliveIdx, List.getElem?_eq_getElem hi] using hfalse
  · intro h k hk
    have hmem : backends[k] ∈ backends := List.getElem_mem hk
    simpa [aliveIdx, List.getElem?_eq_getElem hk] using h _ hmem

theorem getBackendForRequest_admin_state (lb : LoadBalancer) :
    (getBackendForRequest lb "Admin").2 = lb := by
  rw [getBackendForRequest, if_pos rfl]
  cases lb.backends[0]? <;> rfl

theorem getBackendForRequest_nonAdmin (lb : LoadBalancer) (role : String)
    (hrole : role ≠ "Admin") :
    getBackendForRequest lb role =
      (scanAlive lb.backends
        (((lb.roundRobinCount + 1) % U64) % lb.backends.length),
       { lb with roundRobinCount := (lb.roundRobinCount + 1) % U64 }) := by
  rw [getBackendForRequest, if_neg hrole]

theorem routeAll_cons_snd (lb : LoadBalancer) (role : String) (rest : List String) :
    (routeAll lb (role :: rest)).2 = (routeAll (getBackendForRequest lb role).2 rest).2 := by
  rcases hgb : getBackendForRequest lb role with ⟨res, lb1⟩
  rcases hra : routeAll lb1 rest with ⟨results, lb2⟩
  simp [routeAll, hgb, hra]

theorem wrap64_succ (x : Int) : wrap64 (wrap64 x + 1) = wrap64 (x + 1) := by
  unfold wrap64
  have h : (x + 2 ^ 63) % 2 ^ 64 - 2 ^ 63 + 1 + 2 ^ 63 = (x + 2 ^ 63) % 2 ^ 64 + 1 := by
    ring
  have h2 : x + 2 ^ 63 + 1 = x + 1 + 2 ^ 63 := by
    ring
  rw [h, Int.emod_add_emod, h2]

theorem wrap64_of_small (x : Int) (h1 : -(2 ^ 63) ≤ x) (h2 : x < 2 ^ 63) :
    wrap64 x = x := by
  unfold wrap64
  rw [Int.emod_eq_of_lt (by omega) (by omega)]
  ring

theorem iterate_markDown_failCount (c : Backend) (M : Nat) :
    ((fun x => healthProbe x false)^[M + 1] c).failCount =
      wrap64 (c.failCount + (M + 1 : Nat)) := by
  induction M with
  | zero =>
    simp [healthProbe, markDown]
  | succ m ih =>
    rw [Function.iterate_succ_apply']
    have hstep : ∀ d : Backend,
        ((fun x => healthProbe x false) d).failCount = wrap64 (d.failCount + 1) := by
      intro d
      simp [healthProbe, markDown]
    rw [hstep, ih, wrap64_succ]
    congr 1
    push_cast
    ring

/-! Claim theorems. -/

/-- C1: a `"Admin"` (Privileged) request is routed to the designated
privileged backend (index 0) exactly when that backend's liveness flag is
true; when it is not alive the routing fails (`none`, i.e.
`NoBackendAvailable`), and in no pool state does an Admin request return
any backend other than index 0. -/
theorem privileged_route_iff_alive (lb : LoadBalancer)
    (h : 0 < lb.backends.length) :
    ((getBackendForRequest lb "Admin").1 = some 0 ↔
      lb.backends[0].isAlive = true) ∧
    (lb.backends[0].isAlive = false → (getBackendForRequest lb "Admin").1 = none) ∧
    (∀ idx, (getBackendForRequest lb "Admin").1 = some idx → idx = 0) := by
  have h0 : lb.backends[0]? = some lb.backends[0] := List.getElem?_eq_getElem h
  cases hb : lb.backends[0].isAlive <;>
    simp [getBackendForRequest, h0, hb]

/-- Witness for C1 at the three-backend pool of `main.go`, whose admin
backend starts alive. -/
theorem privileged_route_iff_alive_witness :
    (getBackendForRequest sampleLB "Admin").1 = some 0 := by
  have h : 0 < sampleLB.backends.length := by decide
  have hb : (sampleLB.backends.get ⟨0, h⟩).isAlive = true := rfl
  exact ((privileged_route_iff_alive sampleLB h).1).mpr hb

/-- C8: routing never writes health state: for every role the balancer state
after `getBackendForRequest` has every backend's liveness flag and
consecutive-failure counter unchanged (only the `HealthCheck` loop writes
them). -/
theorem route_preserves_health_state (lb : LoadBalancer) (role : String) :
    (getBackendForRequest lb role).2.backends.map (fun b => (b.isAlive, b.failCount)) =
      lb.backends.map (fun b => (b.isAlive, b.failCount)) := by
  have hb : (getBackendForRequest lb role).2.backends = lb.backends := by
    by_cases hrole : role = "Admin"
    · subst hrole
      rw [getBackendForRequest_admin_state]
    · rw [getBackendForRequest_nonAdmin lb role hrole]
  rw [hb]

/-- C9: all backend indices computed during routing are in bounds for a
nonempty pool: any returned index is below the pool size, the
round-robin start index `(cursor + 1) mod 2^64 mod n` is below `n`, and so
is every scanned index `(start + i) mod n`; the privileged path only ever
yields index 0. -/
theorem route_index_in_bounds (lb : LoadBalancer) (role : String)
    (h : 0 < lb.backends.length) :
    (∀ idx, (getBackendForRequest lb role).1 = some idx →
      idx < lb.backends.length) ∧
    (((lb.roundRobinCount + 1) % U64) % lb.backends.length < lb.backends.length) ∧
    (∀ i, ((((lb.roundRobinCount + 1) % U64) % lb.backends.length + i) %
      lb.backends.length < lb.backends.length)) := by
  refine ⟨?_, Nat.mod_lt _ h, fun i => Nat.mod_lt _ h⟩
  intro idx hidx
  by_cases hrole : role = "Admin"
  · subst hrole
    cases hm : lb.backends[0]? with
    | none =>
      simp [getBackendForRequest, hm] at hidx
    | some b =>
      by_cases hb : b.isAlive = true
      · simp [getBackendForRequest, hm, hb] at hidx
        omega
      · simp [getBackendForRequest, hm, hb] at hidx
  · rw [getBackendForRequest_nonAdmin lb role hrole] at hidx
    exact scanAliveAux_lt lb.backends _ _ 0 idx hidx

/-- Witness for C9 at the three-backend pool with a `"User"` request. -/
theorem route_index_in_bounds_witness : (1 : Nat) < sampleLB.backends.length :=
  (route_index_in_bounds sampleLB "User" (by decide)).1 1 (by decide)

/-- C10: an Admin request never touches the round-robin cursor (alive or
not), while every non-Admin routing attempt advances it by one (mod 2^64). -/
theorem privileged_route_cursor_frame (lb : LoadBalancer) (role : String) :
    (getBackendForRequest lb "Admin").2.roundRobinCount = lb.roundRobinCount ∧
    (role ≠ "Admin" →
      (getBackendForRequest lb role).2.roundRobinCount =
        (lb.roundRobinCount + 1) % U64) := by
  constructor
  · rw [getBackendForRequest_admin_state]
  · intro hrole
    rw [getBackendForRequest_nonAdmin lb role hrole]

/-- Witness for C10: on the fresh three-backend pool an Admin request leaves
the cursor at 0 and a Client request advances it to 1. -/
theorem privileged_route_cursor_frame_witness :
    (getBackendForRequest sampleLB "Admin").2.roundRobinCount = 0 ∧
    (getBackendForRequest sampleLB "Client").2.roundRobinCount = 1 := by
  have h := privileged_route_cursor_frame sampleLB "Client"
  constructor
  · rw [h.1]
    decide
  · rw [h.2 (by decide)]
    decide

/-- C2: for a non-Admin role on a nonempty pool, routing advances the shared
cursor by one (mod 2^64), scans at most `n` backends in index order starting
at the new cursor value reduced mod `n`, and returns the first alive backend
(every earlier scanned index was dead); it returns `none`
(`NoBackendAvailable`) exactly when no backend in the pool is alive. -/
theorem roundRobin_scan_first_alive (lb : LoadBalancer) (role : String)
    (hrole : role ≠ "Admin") (hn : 0 < lb.backends.length) :
    (getBackendForRequest lb role).2.roundRobinCount =
      (lb.roundRobinCount + 1) % U64 ∧
    ((getBackendForRequest lb role).1 = none ↔
      ∀ b ∈ lb.backends, b.isAlive = false) ∧
    (∀ idx, (getBackendForRequest lb role).1 = some idx →
      ∃ i, i < lb.backends.length ∧
        idx = ((((lb.roundRobinCount + 1) % U64) % lb.backends.length + i) %
          lb.backends.length) ∧
        aliveIdx lb.backends idx = true ∧
        ∀ j, j < i →
          aliveIdx lb.backends
            ((((lb.roundRobinCount + 1) % U64) % lb.backends.length + j) %
              lb.backends.length) = false) := by
  rw [getBackendForRequest_nonAdmin lb role hrole]
  refine ⟨rfl, ?_, ?_⟩
  · have h1 := scanAliveAux_eq_none lb.backends
      (((lb.roundRobinCount + 1) % U64) % lb.backends.length)
      lb.backends.length 0 (by omega)
    have h1' : scanAlive lb.backends
        (((lb.roundRobinCount + 1) % U64) % lb.backends.length) = none ↔
        ∀ k, k < lb.backends.length →
          aliveIdx lb.backends
            ((((lb.roundRobinCount + 1) % U64) % lb.backends.length + k) %
              lb.backends.length) = false := by
      rw [scanAlive, h1]
      exact ⟨fun h k hk => h k (Nat.zero_le k) hk, fun h k _ hk => h k hk⟩
    exact (h1'.trans
      (aliveIdx_shift_iff lb.backends _ hn)).trans (aliveIdx_false_iff lb.backends)
  · intro idx hidx
    have hidx' : scanAlive lb.backends
        (((lb.roundRobinCount + 1) % U64) % lb.backends.length) = some idx := hidx
    rw [scanAlive] at hidx'
    obtain ⟨k, _, hkn, hid, hal, hprev⟩ := scanAliveAux_eq_some lb.backends
      (((lb.roundRobinCount + 1) % U64) % lb.backends.length)
      lb.backends.length 0 idx (by omega) hidx'
    exact ⟨k, hkn, hid, hal, fun j hj => hprev j (Nat.zero_le j) hj⟩

/-- Witness for C2: after one all-failing health tick every backend is down,
so a `"User"` request on that pool fails with no backend. -/
theorem roundRobin_scan_first_alive_witness :
    (getBackendForRequest deadLB "User").1 = none := by
  have h := (roundRobin_scan_first_alive deadLB "User" (by decide) (by decide)).2.1
  exact h.mpr (by decide)

/-- C3 counterexample: on the three-backend pool of `main.go` with the
cursor at 2, a `"User"` request is routed to index 0, which is the
designated privileged (`IsAdmin`) backend — the round-robin scan does not
exclude it. -/
theorem roundRobin_returns_admin_backend :
    (getBackendForRequest { sampleLB with roundRobinCount := 2 } "User").1 =
      some 0 ∧
    (sampleLB.backends.map Backend.isAdmin) = [true, false, false] := by
  constructor
  · decide
  · decide

/-- C3 amended: the round-robin scan for a non-Admin role distributes among
all healthy backends — the backend it returns is always alive, but it may
be the designated privileged backend (index 0); nothing excludes that
backend from the rotation. -/
theorem roundRobin_selects_alive (lb : LoadBalancer) (role : String)
    (hrole : role ≠ "Admin") (idx : Nat)
    (h : (getBackendForRequest lb role).1 = some idx) :
    aliveIdx lb.backends idx = true := by
  rw [getBackendForRequest_nonAdmin lb role hrole] at h
  have h' : scanAlive lb.backends
      (((lb.roundRobinCount + 1) % U64) % lb.backends.length) = some idx := h
  rw [scanAlive] at h'
  obtain ⟨k, _, _, _, hal, _⟩ := scanAliveAux_eq_some lb.backends _
    lb.backends.length 0 idx (by omega) h'
  exact hal

/-- Witness for C3's amended theorem: the fresh pool routes `"User"` to
index 1, which is indeed alive. -/
theorem roundRobin_selects_alive_witness : aliveIdx sampleLB.backends 1 = true :=
  roundRobin_selects_alive sampleLB "User" (by decide) 1 (by decide)

/-- C5 counterexample: the claim's universal `N` fails at the wrap boundary
of Go's 64-bit `int`: after `2 ^ 63` consecutive failed probes on a fresh
backend the counter is not `2 ^ 63` — the `failCount++` has wrapped to
`-2 ^ 63`. -/
theorem failure_counter_wraps :
    ((fun x => healthProbe x false)^[2 ^ 63] freshBackend).failCount ≠
      ((2 ^ 63 : Nat) : Int) := by
  obtain ⟨M, hM⟩ : ∃ M, (2 : Nat) ^ 63 = M + 1 := ⟨2 ^ 63 - 1, by norm_num⟩
  rw [hM, iterate_markDown_failCount freshBackend M, ← hM]
  have h0 : freshBackend.failCount = 0 := rfl
  rw [h0]
  unfold wrap64
  push_cast

/-- C5 amended: from a backend whose consecutive-failure counter is 0,
`N` consecutive failed health probes with `1 ≤ N < 2 ^ 63` leave the
counter at exactly `N` and the liveness flag false (beyond that bound the
64-bit `int` counter wraps), and a single successful probe sets the flag
true and resets the counter to 0. -/
theorem failure_counter_counts_probes (b : Backend) (N : Nat)
    (h0 : b.failCount = 0) (hN : 1 ≤ N) (hNw : N < 2 ^ 63) :
    ((fun x => healthProbe x false)^[N] b).failCount = (N : Int) ∧
    ((fun x => healthProbe x false)^[N] b).isAlive = false ∧
    (∀ c : Backend, (healthProbe c true).isAlive = true ∧
      (healthProbe c true).failCount = 0) := by
  obtain ⟨m, rfl⟩ : ∃ m, N = m + 1 := ⟨N - 1, by omega⟩
  refine ⟨?_, ?_, ?_⟩
  · rw [iterate_markDown_failCount b m, h0,
      wrap64_of_small _ (by push_cast; omega) (by push_cast; omega)]
    push_cast
    ring
  · rw [Function.iterate_succ_apply']
    simp [healthProbe, markDown]
  · intro c
    simp [healthProbe, markAlive]

/-- Witness for C5's amended theorem: three failed probes on a fresh backend
leave its counter at 3. -/
theorem failure_counter_counts_probes_witness :
    ((fun x => healthProbe x false)^[3] freshBackend).failCount = (3 : Int) :=
  (failure_counter_counts_probes freshBackend 3 rfl (by decide) (by decide)).1

/-- C6 counterexample: `markDown` is not idempotent — applying it twice to a
fresh backend yields failure counter 2, not 1. -/
theorem markDown_not_idempotent :
    markDown (markDown
      { url := "http://localhost:8081", isAdmin := true, isAlive := true,
        failCount := 0, requestCount := 0 }) ≠
    markDown
      { url := "http://localhost:8081", isAdmin := true, isAlive := true,
        failCount := 0, requestCount := 0 } := by
  decide

/-- C6 amended: `markAlive` is idempotent on the full backend state;
`markDown` is idempotent only on the liveness flag: each application
advances the wrapping 64-bit failure counter by one modulo `2 ^ 64`, so
applying `markDown` twice never yields the same state as applying it
once. -/
theorem mark_operations_idempotence (b : Backend) :
    markAlive (markAlive b) = markAlive b ∧
    (markDown (markDown b)).isAlive = (markDown b).isAlive ∧
    markDown (markDown b) ≠ markDown b := by
  refine ⟨by simp [markAlive], by simp [markDown], ?_⟩
  intro heq
  have hfc := congrArg Backend.failCount heq
  simp only [markDown] at hfc
  rw [wrap64_succ] at hfc
  unfold wrap64 at hfc
  omega

/-- C7: `ServeHTTP`'s response is determined by exactly one of four
mutually exclusive outcomes: 401 iff role extraction failed, 503 iff a role
was extracted but routing found no backend, 502 iff a backend was selected
and the forwarding attempt hit a transport error, and the proxied backend
response (with the backend's own status) iff a backend was selected and
forwarding succeeded. -/
theorem serve_outcome_partition (lb : LoadBalancer) (auth : Option String)
    (fwd : ForwardResult) :
    ((ServeHTTP lb auth fwd).1 = HttpOutcome.unauthorized ↔ auth = none) ∧
    ((ServeHTTP lb auth fwd).1 = HttpOutcome.serviceUnavailable ↔
      ∃ role, auth = some role ∧ (getBackendForRequest lb role).1 = none) ∧
    ((ServeHTTP lb auth fwd).1 = HttpOutcome.badGateway ↔
      ∃ role idx, auth = some role ∧
        (getBackendForRequest lb role).1 = some idx ∧
        fwd = ForwardResult.transportError) ∧
    (∀ s, (ServeHTTP lb auth fwd).1 = HttpOutcome.proxied s ↔
      ∃ role idx, auth = some role ∧
        (getBackendForRequest lb role).1 = some idx ∧
        fwd = ForwardResult.ok s) := by
  cases auth with
  | none => simp [ServeHTTP]
  | some role =>
    rcases hgb : getBackendForRequest lb role with ⟨res, lbAfter⟩
    cases res with
    | none => cases fwd <;> simp [ServeHTTP, hgb]
    | some idx => cases fwd <;> simp [ServeHTTP, hgb]

/-- C4 counterexample: one successfully routed Admin request on the fresh
three-backend pool gives one success but `GetStats` reports
`totalRequests = 0` — the cursor does not count successfully routed
requests. -/
theorem totalRequests_not_success_count :
    ((routeAll sampleLB ["Admin"]).1.countP (fun r => r.isSome)) = 1 ∧
    (GetStats (routeAll sampleLB ["Admin"]).2).totalRequests = 0 := by
  constructor
  · decide
  · decide

/-- C4 amended: the shared cursor loses no increment — after any sequence of
sequentially interleaved requests it equals the initial cursor plus the
number of non-Admin requests (mod 2^64), and `GetStats.totalRequests`
reports exactly that cursor; it counts non-privileged routing attempts
(successful or not), not successfully routed requests. -/
theorem cursor_counts_nonprivileged (lb : LoadBalancer) (roles : List String)
    (h : lb.roundRobinCount < U64) :
    (routeAll lb roles).2.roundRobinCount =
      (lb.roundRobinCount + roles.countP (fun r => !(r == "Admin"))) % U64 ∧
    (GetStats (routeAll lb roles).2).totalRequests =
      (routeAll lb roles).2.roundRobinCount := by
  refine ⟨?_, rfl⟩
  induction roles generalizing lb with
  | nil =>
    simp [routeAll, Nat.mod_eq_of_lt h]
  | cons role rest ih =>
    rw [routeAll_cons_snd]
    by_cases hrole : role = "Admin"
    · subst hrole
      rw [getBackendForRequest_admin_state, ih lb h]
      simp [List.countP_cons]
    · rw [getBackendForRequest_nonAdmin lb role hrole]
      have hU : 0 < U64 := by decide
      rw [ih _ (Nat.mod_lt _ hU)]
      have hbeq : (role == "Admin") = false := by
        simp [hrole]
      simp only [List.countP_cons, hbeq, if_true, Bool.not_false]
      rw [Nat.mod_add_mod]
      congr 1
      omega

/-- Witness for C4's amended theorem: a User, an Admin and a Client request
on the fresh pool leave the cursor at 2 (the two non-Admin attempts). -/
theorem cursor_counts_nonprivileged_witness :
    (routeAll sampleLB ["User", "Admin", "Client"]).2.roundRobinCount = 2 := by
  have h :=
    (cursor_counts_nonprivileged sampleLB ["User", "Admin", "Client"] (by decide)).1
  rw [h]
  decide

end LB
